import Mathlib

/-!
Verification of the subchapter-catalog / session-lifecycle controller of
`app.py` (a Streamlit tutoring chat application).

The Python source is shallowly embedded: pure helpers (`pathlib` name/stem
extraction, `str.split`, the catalog construction of
`get_available_subchapters_from_s3`) become Lean functions on `List Char` /
`String`; the Streamlit session state becomes an explicit `SessionState`
record; the selection-change block (app.py lines 232-345) and the chat-input
block (lines 371-389) become state-transition functions whose remote calls
(S3 fetch, model construction, `start_chat`, `send_message`) are resolved by
an explicit environment describing the outcome of each call.
-/

/-! ### Python string and path primitives -/

/-- Python `str.split(sep)` for a single-character separator: splits on every
occurrence and keeps empty runs, so `"a__b".split("_") == ["a", "", "b"]` and
`"".split("_") == [""]`. -/
def splitChar (sep : Char) : List Char → List (List Char)
  | [] => [[]]
  | c :: cs =>
      match splitChar sep cs with
      | [] => [[]]
      | g :: gs => if c = sep then [] :: g :: gs else (c :: g) :: gs

/-- Python `str.endswith(suffix)`. -/
def hasSuffix (s suffixStr : String) : Bool :=
  suffixStr.data.isSuffixOf s.data

/-- Python `pathlib.Path(key).name`: the final path component (empty and `.`
segments are dropped by `pathlib`'s normalisation). -/
def pathName (key : String) : String :=
  ⟨((splitChar '/' key.data).filter (fun seg => decide (seg ≠ [] ∧ seg ≠ ['.']))).getLastD []⟩

/-- Python `pathlib.Path(filename).stem`: the name with its last suffix
removed, where a suffix is a final `.`-separated part that is neither the
whole name (dotfiles like `.txt`) nor empty (trailing dot). This mirrors
`pathlib`'s `name[:i]` with `i = name.rfind('.')` guarded by
`0 < i < len(name) - 1`. -/
def pathStem (filename : String) : String :=
  match filename.data.reverse.findIdx? (fun c => decide (c = '.')) with
  | none => filename
  | some j =>
      let n := filename.data.length
      let i := n - 1 - j
      if 0 < i ∧ i < n - 1 then ⟨filename.data.take i⟩ else filename

/-! ### Catalog builder: `get_available_subchapters_from_s3` (app.py 88-143)

For each listed object key the code takes `filename = Path(object_key).name`,
`stem = Path(filename).stem`, `parts = stem.split('_')`, and records
`subchapter_map[parts[2]] = object_key` exactly when `len(parts) == 3 and
filename.endswith(".txt")`; other keys are skipped with an informational
print. Pagination pages are folded into the same dictionary; at the end the
dictionary is rebuilt sorted by key. A `ClientError` (or any other
exception) makes the function return the empty dictionary. -/

/-- The display name recorded for an object key, if the key matches the
naming pattern of app.py lines 101-109 (`None` means the key is skipped). -/
def parseDisplay (object_key : String) : Option String :=
  let filename := pathName object_key
  let stem := pathStem filename
  match splitChar '_' stem.data with
  | [_main_chapter, _topic, subchapter] =>
      if hasSuffix filename ".txt" then some ⟨subchapter⟩ else none
  | _ => none

/-- Python `dict` assignment `m[d] = k`: replaces the value of an existing
key in place, otherwise appends the new binding. -/
def dictInsert : List (String × String) → String → String → List (String × String)
  | [], d, k => [(d, k)]
  | (d', k') :: rest, d, k =>
      if d' = d then (d', k) :: rest else (d', k') :: dictInsert rest d k

/-- The per-object step of the listing loops (app.py 100-113 and 122-133). -/
def processKey (m : List (String × String)) (object_key : String) : List (String × String) :=
  match parseDisplay object_key with
  | some display_name => dictInsert m display_name object_key
  | none => m

/-- The sorting key used by `sorted(subchapter_map.items())`: comparison by
the (unique) dictionary key. -/
def keyLe (a b : String × String) : Prop :=
  a.1 ≤ b.1

instance : DecidableRel keyLe := fun a b =>
  decidable_of_iff (¬ b.1.toList < a.1.toList)
    (by rw [not_lt, ← String.le_iff_toList_le]; exact Iff.rfl)

instance : IsTotal (String × String) keyLe :=
  ⟨fun a b => le_total a.1 b.1⟩

instance : IsTrans (String × String) keyLe :=
  ⟨fun _ _ _ h1 h2 => le_trans h1 h2⟩

/-- `dict(sorted(subchapter_map.items()))` (app.py 142): the mapping rebuilt
in ascending key order (keys are unique, so any comparison sort yields the
same result as Python's). -/
def sortPairs (m : List (String × String)) : List (String × String) :=
  List.insertionSort keyLe m

/-- Outcome of the `list_objects_v2` interaction: the full sequence of
pagination pages (each page the keys of its `Contents`), or an exception
raised during listing. -/
inductive ListOutcome where
  | pages (ps : List (List String))
  | clientError (msg : String)
  | otherError (msg : String)
deriving DecidableEq, Repr

/-- `get_available_subchapters_from_s3` (app.py 88-143) as a function of the
listing outcome: fold every page into the dictionary, sort by key; on any
exception return the empty dictionary. -/
def get_available_subchapters_from_s3 : ListOutcome → List (String × String)
  | ListOutcome.pages ps => sortPairs (ps.foldl (fun m page => page.foldl processKey m) [])
  | ListOutcome.clientError _ => []
  | ListOutcome.otherError _ => []

/-! ### Content loader: `load_subchapter_content_from_s3` (app.py 145-163) -/

/-- Outcome of the `get_object` + UTF-8 decode interaction for one fetch. -/
inductive FetchOutcome where
  | ok (text : String)
  | clientError (code : String)
  | decodeError
  | otherError (msg : String)
deriving DecidableEq, Repr

/-- `load_subchapter_content_from_s3`: returns the decoded content on
success; every `ClientError` (after showing an error message) and every
other exception (including a UTF-8 decode failure) is swallowed into
`None`. -/
def load_subchapter_content_from_s3 : FetchOutcome → Option String
  | FetchOutcome.ok text => some text
  | FetchOutcome.clientError _ => none
  | FetchOutcome.decodeError => none
  | FetchOutcome.otherError _ => none

/-- The user-visible error message shown by `load_subchapter_content_from_s3`
(app.py 152-163); `none` on success. The `...` parts stand for the
stringified exception, which the embedding does not track further. -/
def load_error_message (bucket_name object_key : String) : FetchOutcome → Option String
  | FetchOutcome.ok _ => none
  | FetchOutcome.clientError code =>
      some (if code = "NoSuchKey" then
              "Unterkapitel-Datei " ++ object_key ++ " nicht im S3-Bucket " ++
                bucket_name ++ " gefunden."
            else if code = "AccessDenied" then
              "Zugriff auf Datei " ++ object_key ++
                " verweigert. Überprüfen Sie die IAM-Berechtigungen."
            else
              "Fehler beim Zugriff auf die S3-Datei " ++ object_key ++ ": ...")
  | FetchOutcome.decodeError =>
      some ("Ein Fehler ist beim Lesen der Datei " ++ object_key ++
              " aus S3 aufgetreten: ...")
  | FetchOutcome.otherError msg =>
      some ("Ein Fehler ist beim Lesen der Datei " ++ object_key ++
              " aus S3 aufgetreten: " ++ msg)

/-! ### Session state and controller (app.py 179-345, 371-389)

`st.session_state` holds `messages`, `selected_subchapter_display_name`,
`subchapter_content`, `learnlm_model` and `chat_session`. The model object
is represented by the system prompt it was initialised with, the chat
session by an opaque numeric handle. -/

/-- A dialogue turn's role. -/
inductive Role where
  | user
  | assistant
deriving DecidableEq, Repr

/-- One entry of `st.session_state.messages`. -/
structure Msg where
  role : Role
  content : String
deriving DecidableEq, Repr

/-- The session-state variables of the app. -/
structure SessionState where
  messages : List Msg
  selected : String
  subchapter_content : Option String
  learnlm_model : Option String
  chat_session : Option Nat
deriving DecidableEq, Repr

/-- The "none selected" sentinel (app.py 84). -/
def PLATZHALTER_AUSWAHL : String := "-- Unterkapitel auswählen --"

/-- `reset_chat_state` (app.py 179-185): clears the dialogue, the model, the
chat session and the content; the selection is not touched. -/
def reset_chat_state (s : SessionState) : SessionState :=
  { s with messages := [], learnlm_model := none,
           chat_session := none, subchapter_content := none }

/-- The system prompt of app.py 255-308: a fixed instructional template
embedding the chapter label and the subchapter content verbatim (the long
instructional boilerplate between the markers is abbreviated here; no claim
depends on its wording). -/
def system_prompt (label content : String) : String :=
  "Du bist ein KI-gestuetzter Tutor auf Basis von LearnLM. Dein Wissen ist " ++
    "AUSSCHLIESSLICH auf den folgenden Text zum Kapitel " ++ label ++ " beschraenkt.\n" ++
    "--- START DES TEXTES ZUM KAPITEL " ++ label ++ " ---\n" ++ content ++
    "\n--- ENDE DES TEXTES ZUM KAPITEL " ++ label ++ " ---\n"

/-- `initialize_learnlm_model` (app.py 165-176): returns the configured
model on success and `None` when the constructor raises; `succeeds` is the
outcome of the constructor call. -/
def initialize_learnlm_model (succeeds : Bool) (prompt : String) : Option String :=
  if succeeds then some prompt else none

/-- The static fallback greeting appended when the initial-greeting request
fails (app.py 326). -/
def fallback_greeting (label : String) : String :=
  "Hallo! Ich bin bereit, Ihnen beim Verständnis der Konzepte in " ++ label ++
    " zu helfen. Fragen Sie mich gerne alles zu diesem Unterkapitel."

/-- The synthesized assistant turn appended when `send_message` raises
(app.py 387). -/
def send_error_reply (err : String) : String :=
  "Entschuldigung, ich bin auf einen Fehler gestoßen: " ++ err

/-- Observable steps of a selection transition, recorded in program order.
`reset` is the `reset_chat_state()` call; the others are the remote
interactions of the load. -/
inductive Event where
  | reset
  | fetchContent (object_key : String)
  | openDialogue
  | requestGreeting
deriving DecidableEq, Repr

/-- Whether the event is a remote interaction (S3 fetch or Chat Gateway
call) rather than the local state reset. -/
def Event.isRemote : Event → Bool
  | Event.reset => false
  | _ => true

/-- Outcomes of the remote calls performed during one selection transition:
the S3 fetch, the model constructor, `start_chat`, and the
initial-greeting `send_message`. -/
structure LoadEnv where
  fetch : FetchOutcome
  modelInit : Bool
  startChat : Except String Nat
  greeting : Except String String

/-- Python `dict.get(d)` on the subchapter map (first binding of the key;
built maps have unique keys). -/
def lookupA (m : List (String × String)) (d : String) : Option String :=
  (m.find? (fun e => decide (e.1 = d))).map Prod.snd

/-- The selection-change block of app.py 232-345, entered when the selectbox
value differs from the previous selection. Returns the resulting session
state together with the trace of observable steps, each paired with the
session state at the instant the step begins.

Control flow mirrored: store the new selection (233); placeholder selected
=> reset and stop (235-238); otherwise reset eagerly (242), resolve the
object key (245), and then: missing/falsy key => error + reset + selection
forced to the placeholder (342-345); fetch returning `None` or an empty
string => reset + placeholder (338-341, via the truthiness test at 251);
model constructor failing => reset + placeholder (334-337); `start_chat`
raising => reset + placeholder (330-333); greeting request failing is
non-fatal: the static fallback turn is appended instead (320-326). -/
def selectUnit (catalog : List (String × String)) (s0 : SessionState)
    (label : String) (env : LoadEnv) : SessionState × List (Event × SessionState) :=
  let s1 : SessionState := { s0 with selected := label }
  if label = PLATZHALTER_AUSWAHL then
    (reset_chat_state s1, [(Event.reset, s1)])
  else
    let s2 := reset_chat_state s1
    match lookupA catalog label with
    | none =>
        ({ reset_chat_state s2 with selected := PLATZHALTER_AUSWAHL },
         [(Event.reset, s1)])
    | some object_key =>
        if object_key = "" then
          ({ reset_chat_state s2 with selected := PLATZHALTER_AUSWAHL },
           [(Event.reset, s1)])
        else
          match load_subchapter_content_from_s3 env.fetch with
          | none =>
              ({ reset_chat_state s2 with selected := PLATZHALTER_AUSWAHL },
               [(Event.reset, s1), (Event.fetchContent object_key, s2)])
          | some content =>
              if content = "" then
                ({ reset_chat_state s2 with selected := PLATZHALTER_AUSWAHL },
                 [(Event.reset, s1), (Event.fetchContent object_key, s2)])
              else
                let s3 := { s2 with subchapter_content := some content }
                match initialize_learnlm_model env.modelInit (system_prompt label content) with
                | none =>
                    ({ reset_chat_state s3 with selected := PLATZHALTER_AUSWAHL },
                     [(Event.reset, s1), (Event.fetchContent object_key, s2)])
                | some prompt =>
                    let s4 := { s3 with learnlm_model := some prompt }
                    match env.startChat with
                    | Except.error _ =>
                        ({ reset_chat_state s4 with selected := PLATZHALTER_AUSWAHL },
                         [(Event.reset, s1), (Event.fetchContent object_key, s2),
                          (Event.openDialogue, s4)])
                    | Except.ok handle =>
                        let s5 := { s4 with chat_session := some handle }
                        let tr := [(Event.reset, s1), (Event.fetchContent object_key, s2),
                                   (Event.openDialogue, s4), (Event.requestGreeting, s5)]
                        match env.greeting with
                        | Except.ok text =>
                            ({ s5 with messages := s5.messages ++ [Msg.mk Role.assistant text] }, tr)
                        | Except.error _ =>
                            ({ s5 with messages :=
                                 s5.messages ++ [Msg.mk Role.assistant (fallback_greeting label)] }, tr)

/-- The chat-input block of app.py 371-389: append the user turn, forward it
on the open chat session; on success append the assistant reply, on failure
append the synthesized error turn. Nothing else of the state is touched. -/
def sendMessage (s : SessionState) (text : String)
    (gateway : Except String String) : SessionState :=
  let s1 := { s with messages := s.messages ++ [Msg.mk Role.user text] }
  match gateway with
  | Except.ok reply =>
      { s1 with messages := s1.messages ++ [Msg.mk Role.assistant reply] }
  | Except.error err =>
      { s1 with messages := s1.messages ++ [Msg.mk Role.assistant (send_error_reply err)] }

/-- Session state at app start (app.py 193-205). -/
def initialState : SessionState :=
  { messages := [], selected := PLATZHALTER_AUSWAHL,
    subchapter_content := none, learnlm_model := none, chat_session := none }

/-- The single opening turn appended by app.py 320-326: the model's reply on
success, the static fallback greeting when the greeting request fails. -/
def greeting_msg (label : String) : Except String String → Msg
  | Except.ok text => Msg.mk Role.assistant text
  | Except.error _ => Msg.mk Role.assistant (fallback_greeting label)

/-- A concrete backend listing (spec Scenario A). -/
def demoListing : ListOutcome :=
  ListOutcome.pages [["8_Economics_8.3 Inflation.txt", "stray.txt"]]

/-- The catalog built from `demoListing`. -/
def demoCatalog : List (String × String) :=
  get_available_subchapters_from_s3 demoListing

/-- An environment in which every remote call of the load succeeds
(spec Scenario B). -/
def goodEnv : LoadEnv :=
  { fetch := FetchOutcome.ok "...[seite: 221]...", modelInit := true,
    startChat := Except.ok 1, greeting := Except.ok "Hallo!" }

/-- An environment whose S3 content fetch fails with a denied-access
client error. -/
def fetchFailEnv : LoadEnv :=
  { fetch := FetchOutcome.clientError "AccessDenied", modelInit := true,
    startChat := Except.ok 1, greeting := Except.ok "Hallo!" }

/-- An environment in which only the initial-greeting request fails. -/
def greetFailEnv : LoadEnv :=
  { fetch := FetchOutcome.ok "...[seite: 221]...", modelInit := true,
    startChat := Except.ok 7, greeting := Except.error "Timeout" }

/-- An environment whose content fetch succeeds but returns the empty
string. -/
def emptyContentEnv : LoadEnv :=
  { fetch := FetchOutcome.ok "", modelInit := true,
    startChat := Except.ok 1, greeting := Except.ok "Hallo!" }

/-! ### Dictionary lemmas -/

theorem lookupA_nil (d' : String) : lookupA [] d' = none := rfl

theorem lookupA_cons (d0 k0 d' : String) (rest : List (String × String)) :
    lookupA ((d0, k0) :: rest) d' = if d0 = d' then some k0 else lookupA rest d' := by
  unfold lookupA
  by_cases h : d0 = d'
  · rw [List.find?_cons_of_pos _ (by simpa using h), if_pos h]
    rfl
  · rw [List.find?_cons_of_neg _ (by simpa using h), if_neg h]

theorem lookupA_dictInsert (m : List (String × String)) (d k d' : String) :
    lookupA (dictInsert m d k) d' = if d' = d then some k else lookupA m d' := by
  induction m with
  | nil =>
      show lookupA [(d, k)] d' = _
      rw [lookupA_cons]
      by_cases h : d' = d
      · simp [h]
      · simp [h, show ¬ d = d' from fun hc => h hc.symm]
  | cons e rest ih =>
      obtain ⟨d0, k0⟩ := e
      by_cases h0 : d0 = d
      · subst h0
        rw [show dictInsert ((d0, k0) :: rest) d0 k = (d0, k) :: rest by simp [dictInsert]]
        rw [lookupA_cons, lookupA_cons]
        by_cases h : d0 = d'
        · subst h
          simp
        · simp [h, show ¬ d' = d0 from fun hc => h hc.symm]
      · simp only [dictInsert, if_neg h0]
        rw [lookupA_cons, lookupA_cons, ih]
        by_cases h : d0 = d'
        · have hne : ¬ d' = d := fun hc => h0 (h.trans hc)
          simp [h, hne]
        · by_cases hdd : d' = d <;> simp [h, h0, hdd]

theorem mem_of_lookupA {m : List (String × String)} {d k : String}
    (h : lookupA m d = some k) : (d, k) ∈ m := by
  unfold lookupA at h
  obtain ⟨e, he, hk⟩ := Option.map_eq_some'.mp h
  have hmem := List.mem_of_find?_eq_some he
  have hp := @List.find?_some _ (fun e => decide (e.1 = d)) e m he
  have hd : e.1 = d := of_decide_eq_true hp
  obtain ⟨e1, e2⟩ := e
  simp only at hd hk
  rw [hd, hk] at hmem
  exact hmem

theorem lookupA_eq_none_iff {m : List (String × String)} {d : String} :
    lookupA m d = none ↔ ∀ k, (d, k) ∉ m := by
  constructor
  · intro h k hk
    unfold lookupA at h
    rw [Option.map_eq_none'] at h
    rw [List.find?_eq_none] at h
    exact absurd (by simp : decide ((d, k).1 = d) = true) (h _ hk)
  · intro h
    unfold lookupA
    rw [Option.map_eq_none', List.find?_eq_none]
    intro e he hp
    have hd : e.1 = d := of_decide_eq_true hp
    exact h e.2 (by rw [← hd]; exact he)

theorem lookupA_of_mem {m : List (String × String)} {d k : String}
    (hnd : (m.map Prod.fst).Nodup) (hm : (d, k) ∈ m) : lookupA m d = some k := by
  induction m with
  | nil => cases hm
  | cons e rest ih =>
      obtain ⟨d0, k0⟩ := e
      simp only [List.map_cons, List.nodup_cons] at hnd
      rw [lookupA_cons]
      rcases List.mem_cons.mp hm with h | h
      · have h1 : d = d0 := congrArg Prod.fst h
        have h2 : k = k0 := congrArg Prod.snd h
        simp [h1, h2]
      · have hne : ¬ d0 = d := by
          intro hc
          exact hnd.1 (hc ▸ (List.mem_map.mpr ⟨(d, k), h, rfl⟩))
        rw [if_neg hne]
        exact ih hnd.2 h

theorem lookupA_perm {m m' : List (String × String)}
    (hperm : m.Perm m') (hnd : (m.map Prod.fst).Nodup) (d : String) :
    lookupA m d = lookupA m' d := by
  have hnd' : (m'.map Prod.fst).Nodup := ((hperm.map Prod.fst).nodup_iff).mp hnd
  cases hc : lookupA m d with
  | some k =>
      have := mem_of_lookupA hc
      exact (lookupA_of_mem hnd' (hperm.mem_iff.mp this)).symm
  | none =>
      have h := lookupA_eq_none_iff.mp hc
      symm
      exact lookupA_eq_none_iff.mpr (fun k hk => h k (hperm.mem_iff.mpr hk))

theorem map_fst_dictInsert (m : List (String × String)) (d k : String) :
    (dictInsert m d k).map Prod.fst =
      if d ∈ m.map Prod.fst then m.map Prod.fst else m.map Prod.fst ++ [d] := by
  induction m with
  | nil => simp [dictInsert]
  | cons e rest ih =>
      obtain ⟨d0, k0⟩ := e
      by_cases h0 : d0 = d
      · subst h0
        rw [show dictInsert ((d0, k0) :: rest) d0 k = (d0, k) :: rest by simp [dictInsert]]
        simp
      · simp only [dictInsert, if_neg h0, List.map_cons, ih]
        have hmem : (d ∈ d0 :: rest.map Prod.fst) ↔ (d ∈ rest.map Prod.fst) := by
          constructor
          · intro hc
            rcases List.mem_cons.mp hc with hc | hc
            · exact absurd hc.symm h0
            · exact hc
          · exact fun hc => List.mem_cons_of_mem _ hc
        by_cases h : d ∈ rest.map Prod.fst
        · simp [h, hmem.mpr h]
        · have : ¬ d ∈ d0 :: rest.map Prod.fst := fun hc => h (hmem.mp hc)
          simp only [List.mem_cons] at this ⊢
          rw [if_neg h, if_neg this]
          simp

theorem nodup_map_fst_dictInsert {m : List (String × String)} (d k : String)
    (hnd : (m.map Prod.fst).Nodup) : ((dictInsert m d k).map Prod.fst).Nodup := by
  rw [map_fst_dictInsert]
  by_cases h : d ∈ m.map Prod.fst
  · rwa [if_pos h]
  · rw [if_neg h]
    refine List.Nodup.append hnd (List.nodup_singleton d) ?_
    intro a ha hb
    rw [List.mem_singleton] at hb
    exact h (hb ▸ ha)

theorem mem_fst_dictInsert (m : List (String × String)) (d k : String) :
    d ∈ (dictInsert m d k).map Prod.fst := by
  rw [map_fst_dictInsert]
  by_cases h : d ∈ m.map Prod.fst
  · rwa [if_pos h]
  · rw [if_neg h]
    simp

theorem mem_fst_dictInsert_of_mem {m : List (String × String)} {d' : String} (d k : String)
    (h : d' ∈ m.map Prod.fst) : d' ∈ (dictInsert m d k).map Prod.fst := by
  rw [map_fst_dictInsert]
  by_cases hd : d ∈ m.map Prod.fst
  · rwa [if_pos hd]
  · rw [if_neg hd]
    exact List.mem_append_left _ h

theorem mem_dictInsert {m : List (String × String)} {d k d' k' : String}
    (h : (d', k') ∈ dictInsert m d k) : (d', k') ∈ m ∨ (d' = d ∧ k' = k) := by
  induction m with
  | nil =>
      simp only [dictInsert] at h
      rcases List.mem_singleton.mp h with h
      exact Or.inr ⟨congrArg Prod.fst h, congrArg Prod.snd h⟩
  | cons e rest ih =>
      obtain ⟨d0, k0⟩ := e
      by_cases h0 : d0 = d
      · subst h0
        rw [show dictInsert ((d0, k0) :: rest) d0 k = (d0, k) :: rest by simp [dictInsert]] at h
        rcases List.mem_cons.mp h with h | h
        · exact Or.inr ⟨congrArg Prod.fst h, congrArg Prod.snd h⟩
        · exact Or.inl (List.mem_cons_of_mem _ h)
      · simp only [dictInsert, if_neg h0] at h
        rcases List.mem_cons.mp h with h | h
        · exact Or.inl (h ▸ List.mem_cons_self _ _)
        · rcases ih h with h | h
          · exact Or.inl (List.mem_cons_of_mem _ h)
          · exact Or.inr h

theorem length_dictInsert (m : List (String × String)) (d k : String) :
    (dictInsert m d k).length ≤ m.length + 1 := by
  induction m with
  | nil => simp [dictInsert]
  | cons e rest ih =>
      obtain ⟨d0, k0⟩ := e
      by_cases h0 : d0 = d
      · subst h0
        rw [show dictInsert ((d0, k0) :: rest) d0 k = (d0, k) :: rest by simp [dictInsert]]
        simp
      · simp only [dictInsert, if_neg h0, List.length_cons]
        omega

/-! ### Lemmas about the listing fold -/

theorem nodup_map_fst_foldl (l : List String) (m : List (String × String))
    (hnd : (m.map Prod.fst).Nodup) :
    ((l.foldl processKey m).map Prod.fst).Nodup := by
  induction l generalizing m with
  | nil => exact hnd
  | cons k rest ih =>
      apply ih
      unfold processKey
      cases parseDisplay k with
      | none => exact hnd
      | some d => exact nodup_map_fst_dictInsert d k hnd

theorem length_foldl_processKey (l : List String) (m : List (String × String)) :
    (l.foldl processKey m).length ≤ m.length + l.length := by
  induction l generalizing m with
  | nil => simp
  | cons k rest ih =>
      calc (rest.foldl processKey (processKey m k)).length
          ≤ (processKey m k).length + rest.length := ih _
        _ ≤ m.length + (k :: rest).length := by
            have : (processKey m k).length ≤ m.length + 1 := by
              unfold processKey
              cases parseDisplay k with
              | none => simp
              | some d => exact length_dictInsert m d k
            simp only [List.length_cons]
            omega

theorem mem_foldl_processKey {l : List String} {m : List (String × String)}
    {d k : String} (h : (d, k) ∈ l.foldl processKey m) :
    (d, k) ∈ m ∨ (k ∈ l ∧ parseDisplay k = some d) := by
  induction l generalizing m with
  | nil => exact Or.inl h
  | cons k0 rest ih =>
      rcases ih h with h' | h'
      · unfold processKey at h'
        cases hp : parseDisplay k0 with
        | none =>
            rw [hp] at h'
            exact Or.inl h'
        | some d0 =>
            rw [hp] at h'
            rcases mem_dictInsert h' with h2 | h2
            · exact Or.inl h2
            · exact Or.inr ⟨h2.2 ▸ List.mem_cons_self _ _, by rw [h2.2, hp, h2.1]⟩
      · exact Or.inr ⟨List.mem_cons_of_mem _ h'.1, h'.2⟩

theorem mem_fst_foldl_of_mem {l : List String} {m : List (String × String)}
    {d : String} (h : d ∈ m.map Prod.fst) :
    d ∈ (l.foldl processKey m).map Prod.fst := by
  induction l generalizing m with
  | nil => exact h
  | cons k rest ih =>
      apply ih
      unfold processKey
      cases parseDisplay k with
      | none => exact h
      | some d0 => exact mem_fst_dictInsert_of_mem d0 k h

theorem mem_fst_foldl_of_parse {l : List String} {m : List (String × String)}
    {d k : String} (hk : k ∈ l) (hp : parseDisplay k = some d) :
    d ∈ (l.foldl processKey m).map Prod.fst := by
  induction l generalizing m with
  | nil => cases hk
  | cons k0 rest ih =>
      rcases List.mem_cons.mp hk with hk | hk
      · subst hk
        rw [List.foldl_cons]
        apply mem_fst_foldl_of_mem
        simp only [processKey, hp]
        exact mem_fst_dictInsert m d k
      · exact ih hk

theorem lookupA_foldl_processKey (l : List String) (m : List (String × String)) (d : String) :
    lookupA (l.foldl processKey m) d =
      (l.reverse.find? (fun k => decide (parseDisplay k = some d))).or (lookupA m d) := by
  induction l generalizing m with
  | nil => simp
  | cons k0 rest ih =>
      rw [List.foldl_cons, ih, List.reverse_cons, List.find?_append, Option.or_assoc]
      congr 1
      cases hf : List.find? (fun k => decide (parseDisplay k = some d)) [k0] with
      | some k =>
          have hk : k = k0 := by
            have := List.mem_of_find?_eq_some hf
            simpa using this
          subst hk
          have hp := @List.find?_some _ (fun k2 => decide (parseDisplay k2 = some d)) k [k] hf
          have hpd : parseDisplay k = some d := of_decide_eq_true hp
          simp only [processKey, hpd]
          rw [lookupA_dictInsert]
          simp
      | none =>
          have := List.find?_eq_none.mp hf k0 (List.mem_singleton.mpr rfl)
          have hpd : ¬ parseDisplay k0 = some d := fun hc => this (decide_eq_true hc)
          cases hp : parseDisplay k0 with
          | none => simp [processKey, hp]
          | some d0 =>
              have hne : ¬ d = d0 := fun hc => hpd (by rw [hp, hc])
              simp only [processKey, hp]
              rw [lookupA_dictInsert, if_neg hne]
              simp

/-! ### Sorting lemmas -/

theorem sortPairs_perm (m : List (String × String)) : (sortPairs m).Perm m :=
  List.perm_insertionSort keyLe m

theorem sorted_sortPairs (m : List (String × String)) :
    List.Sorted keyLe (sortPairs m) :=
  List.sorted_insertionSort keyLe m

theorem lookupA_sortPairs (m : List (String × String))
    (hnd : (m.map Prod.fst).Nodup) (d : String) :
    lookupA (sortPairs m) d = lookupA m d := by
  have hperm := sortPairs_perm m
  have hnd' : ((sortPairs m).map Prod.fst).Nodup :=
    ((hperm.map Prod.fst).nodup_iff).mpr hnd
  exact lookupA_perm hperm hnd' d

theorem chain_lt_sortPairs (m : List (String × String))
    (hnd : (m.map Prod.fst).Nodup) :
    List.Chain' (fun a b : String × String => a.1 < b.1) (sortPairs m) := by
  have hperm := sortPairs_perm m
  have hnd' : ((sortPairs m).map Prod.fst).Nodup :=
    ((hperm.map Prod.fst).nodup_iff).mpr hnd
  have hne : List.Pairwise (fun a b : String × String => a.1 ≠ b.1) (sortPairs m) := by
    rw [List.Nodup, List.pairwise_map] at hnd'
    exact hnd'
  have hle : List.Pairwise keyLe (sortPairs m) := sorted_sortPairs m
  have := hle.and hne
  exact List.Pairwise.chain' (this.imp (fun h => lt_of_le_of_ne h.1 h.2))

/-- The pagination loops (app.py 100-133) build the same dictionary as one
pass over the concatenation of all pages. -/
theorem foldl_pages_eq_flatten (ps : List (List String)) :
    ps.foldl (fun m page => page.foldl processKey m) [] = ps.flatten.foldl processKey [] :=
  (List.foldl_flatten processKey [] ps).symm

theorem nodup_map_fst_catalog (lo : ListOutcome) :
    ((get_available_subchapters_from_s3 lo).map Prod.fst).Nodup := by
  cases lo with
  | pages ps =>
      unfold get_available_subchapters_from_s3
      have h0 : (([] : List (String × String)).map Prod.fst).Nodup := by simp
      have hnd := nodup_map_fst_foldl ps.flatten [] h0
      rw [← foldl_pages_eq_flatten] at hnd
      exact ((sortPairs_perm _).map Prod.fst).nodup_iff.mpr hnd
  | clientError msg => simp [get_available_subchapters_from_s3]
  | otherError msg => simp [get_available_subchapters_from_s3]

/-! ### Evaluation lemmas for the selection transition -/

theorem selectUnit_sentinel (catalog : List (String × String)) (s : SessionState)
    (env : LoadEnv) :
    (selectUnit catalog s PLATZHALTER_AUSWAHL env).1 = initialState := by
  simp [selectUnit, reset_chat_state, initialState]

theorem selectUnit_success (catalog : List (String × String)) (s : SessionState)
    (label : String) (env : LoadEnv) (object_key content : String) (handle : Nat)
    (hl : label ≠ PLATZHALTER_AUSWAHL)
    (hk : lookupA catalog label = some object_key) (hk0 : object_key ≠ "")
    (hf : load_subchapter_content_from_s3 env.fetch = some content) (hc : content ≠ "")
    (hm : env.modelInit = true) (hs : env.startChat = Except.ok handle) :
    (selectUnit catalog s label env).1 =
      { messages := [greeting_msg label env.greeting], selected := label,
        subchapter_content := some content,
        learnlm_model := some (system_prompt label content),
        chat_session := some handle } := by
  obtain ⟨f, mi, sc, gr⟩ := env
  simp only at hf hm hs
  subst hm hs
  simp only [selectUnit, if_neg hl, hk, if_neg hk0, hf, if_neg hc,
    initialize_learnlm_model, if_pos rfl, reset_chat_state]
  cases gr <;> simp [greeting_msg]

theorem selectUnit_failure (catalog : List (String × String)) (s : SessionState)
    (label : String) (env : LoadEnv)
    (hl : label ≠ PLATZHALTER_AUSWAHL)
    (hfail : lookupA catalog label = none ∨ lookupA catalog label = some "" ∨
      load_subchapter_content_from_s3 env.fetch = none ∨
      load_subchapter_content_from_s3 env.fetch = some "" ∨
      env.modelInit = false ∨ (∃ e, env.startChat = Except.error e)) :
    (selectUnit catalog s label env).1 = initialState := by
  obtain ⟨f, mi, sc, gr⟩ := env
  simp only at hfail
  cases hlk : lookupA catalog label with
  | none =>
      simp [selectUnit, if_neg hl, hlk, reset_chat_state, initialState]
  | some object_key =>
      by_cases hk0 : object_key = ""
      · subst hk0
        simp [selectUnit, if_neg hl, hlk, reset_chat_state, initialState]
      · cases hld : load_subchapter_content_from_s3 f with
        | none =>
            simp [selectUnit, if_neg hl, hlk, hk0, hld, reset_chat_state, initialState]
        | some content =>
            by_cases hc : content = ""
            · subst hc
              simp [selectUnit, if_neg hl, hlk, hk0, hld, reset_chat_state, initialState]
            · cases hmi : mi with
              | false =>
                  simp [selectUnit, if_neg hl, hlk, hk0, hld, hc, hmi,
                    initialize_learnlm_model, reset_chat_state, initialState]
              | true =>
                  cases hsc : sc with
                  | error e =>
                      simp [selectUnit, if_neg hl, hlk, hk0, hld, hc, hmi, hsc,
                        initialize_learnlm_model, reset_chat_state, initialState]
                  | ok handle =>
                      subst hmi hsc
                      rcases hfail with h | h | h | h | h | ⟨e, h⟩
                      · rw [hlk] at h; cases h
                      · rw [hlk] at h
                        exact absurd (Option.some.inj h) hk0
                      · rw [hld] at h; cases h
                      · rw [hld] at h
                        exact absurd (Option.some.inj h) hc
                      · cases h
                      · cases h

/-! ### Claim theorems -/

/-- **C1** (amended): in every selection transition the session reset happens
before any remote I/O of the load: every remote step recorded in the trace
observes an empty dialogue, and the S3 content fetch — the first backend I/O
of the load — observes the fully reset session (no content, no model, no
chat handle), so stale dialogue is never visible once the load touches the
backend. -/
theorem claim1_reset_before_remote (catalog : List (String × String)) (s : SessionState)
    (label : String) (env : LoadEnv) :
    ∀ ev st, (ev, st) ∈ (selectUnit catalog s label env).2 → ev.isRemote = true →
      st.messages = [] ∧
      (∀ object_key, ev = Event.fetchContent object_key →
        st.subchapter_content = none ∧ st.learnlm_model = none ∧ st.chat_session = none) := by
  obtain ⟨f, mi, sc, gr⟩ := env
  intro ev st hmem hrem
  by_cases hl : label = PLATZHALTER_AUSWAHL
  · subst hl
    simp [selectUnit] at hmem
    rw [hmem.1] at hrem
    simp [Event.isRemote] at hrem
  · cases hlk : lookupA catalog label with
    | none =>
        simp [selectUnit, hl, hlk] at hmem
        rw [hmem.1] at hrem
        simp [Event.isRemote] at hrem
    | some object_key =>
        by_cases hk0 : object_key = ""
        · subst hk0
          simp [selectUnit, hl, hlk] at hmem
          rw [hmem.1] at hrem
          simp [Event.isRemote] at hrem
        · cases hld : load_subchapter_content_from_s3 f with
          | none =>
              simp [selectUnit, hl, hlk, hk0, hld, reset_chat_state] at hmem
              rcases hmem with ⟨hev, hst⟩ | ⟨hev, hst⟩
              · rw [hev] at hrem
                simp [Event.isRemote] at hrem
              · subst hev hst
                exact ⟨rfl, fun ok2 hek => ⟨rfl, rfl, rfl⟩⟩
          | some content =>
              by_cases hc : content = ""
              · subst hc
                simp [selectUnit, hl, hlk, hk0, hld, reset_chat_state] at hmem
                rcases hmem with ⟨hev, hst⟩ | ⟨hev, hst⟩
                · rw [hev] at hrem
                  simp [Event.isRemote] at hrem
                · subst hev hst
                  exact ⟨rfl, fun ok2 hek => ⟨rfl, rfl, rfl⟩⟩
              · cases hmi : mi with
                | false =>
                    simp [selectUnit, hl, hlk, hk0, hld, hc, hmi,
                      initialize_learnlm_model, reset_chat_state] at hmem
                    rcases hmem with ⟨hev, hst⟩ | ⟨hev, hst⟩
                    · rw [hev] at hrem
                      simp [Event.isRemote] at hrem
                    · subst hev hst
                      exact ⟨rfl, fun ok2 hek => ⟨rfl, rfl, rfl⟩⟩
                | true =>
                    cases hsc : sc with
                    | error e =>
                        simp [selectUnit, hl, hlk, hk0, hld, hc, hmi, hsc,
                          initialize_learnlm_model, reset_chat_state] at hmem
                        rcases hmem with ⟨hev, hst⟩ | ⟨hev, hst⟩ | ⟨hev, hst⟩
                        · rw [hev] at hrem
                          simp [Event.isRemote] at hrem
                        · subst hev hst
                          exact ⟨rfl, fun ok2 hek => ⟨rfl, rfl, rfl⟩⟩
                        · subst hev hst
                          exact ⟨rfl, fun ok2 hek => by cases hek⟩
                    | ok handle =>
                        cases gr <;>
                          (simp [selectUnit, hl, hlk, hk0, hld, hc, hmi, hsc,
                             initialize_learnlm_model, reset_chat_state] at hmem
                           rcases hmem with ⟨hev, hst⟩ | ⟨hev, hst⟩ | ⟨hev, hst⟩ | ⟨hev, hst⟩
                           · rw [hev] at hrem
                             simp [Event.isRemote] at hrem
                           · subst hev hst
                             exact ⟨rfl, fun ok2 hek => ⟨rfl, rfl, rfl⟩⟩
                           · subst hev hst
                             exact ⟨rfl, fun ok2 hek => by cases hek⟩
                           · subst hev hst
                             exact ⟨rfl, fun ok2 hek => by cases hek⟩)

/-- **C1** counterexample to the claim as stated: after a successful first
`selectUnit` the dialogue holds the opening turn, and this dialogue is what
is observed at the instant a second `selectUnit` call (different label)
begins — the observed state of the second call's first step still carries
it — so the dialogue observed when the second call begins is not empty. -/
theorem claim1_counterexample :
    (selectUnit demoCatalog initialState "8.3 Inflation" goodEnv).1.messages =
        [Msg.mk Role.assistant "Hallo!"] ∧
    ((selectUnit demoCatalog
        (selectUnit demoCatalog initialState "8.3 Inflation" goodEnv).1
        "7.1 Geld" goodEnv).2.map (fun p => p.2.messages)).head? =
      some [Msg.mk Role.assistant "Hallo!"] ∧
    [Msg.mk Role.assistant "Hallo!"] ≠ ([] : List Msg) := by
  refine ⟨by decide, by decide, by decide⟩

/-- **C2** counterexample to the claim as stated: the key `x__y.txt` has a
base name whose `_`-split contains an empty field, yet the Catalog Builder
records it; the key `a_b_c.md` has a base name splitting into exactly 3
non-empty fields, yet it is skipped (the code additionally requires the
`.txt` suffix). -/
theorem claim2_counterexample :
    get_available_subchapters_from_s3 (ListOutcome.pages [["x__y.txt"]]) =
        [("y", "x__y.txt")] ∧
    [] ∈ splitChar '_' (pathStem (pathName "x__y.txt")).data ∧
    get_available_subchapters_from_s3 (ListOutcome.pages [["a_b_c.md"]]) = [] ∧
    (splitChar '_' (pathStem (pathName "a_b_c.md")).data).length = 3 ∧
    ¬ [] ∈ splitChar '_' (pathStem (pathName "a_b_c.md")).data := by
  refine ⟨by decide, by decide, by decide, by decide, by decide⟩

/-- **C2** (amended): an id is recorded iff its base name (directory prefix
and last suffix stripped) splits on `_` into exactly 3 fields — fields may
be empty — and its filename ends in `.txt`; every catalog entry comes from a
listed id satisfying this parse, every listed id satisfying it contributes
its display name, and the number of catalog entries never exceeds the number
of listed units. -/
theorem claim2_naming_parse_law (ps : List (List String)) :
    (∀ key, (parseDisplay key).isSome = true ↔
        ((splitChar '_' (pathStem (pathName key)).data).length = 3 ∧
          hasSuffix (pathName key) ".txt" = true)) ∧
    (∀ d k, (d, k) ∈ get_available_subchapters_from_s3 (ListOutcome.pages ps) →
        k ∈ ps.flatten ∧ parseDisplay k = some d) ∧
    (∀ k d, k ∈ ps.flatten → parseDisplay k = some d →
        ∃ k2, (d, k2) ∈ get_available_subchapters_from_s3 (ListOutcome.pages ps)) ∧
    (get_available_subchapters_from_s3 (ListOutcome.pages ps)).length ≤
      ps.flatten.length := by
  refine ⟨?_, ?_, ?_, ?_⟩
  · intro key
    simp only [parseDisplay]
    rcases hs : splitChar '_' (pathStem (pathName key)).data with
      _ | ⟨a, _ | ⟨b, _ | ⟨c, _ | ⟨e2, tl⟩⟩⟩⟩
    · simp
    · simp
    · simp
    · by_cases hsf : hasSuffix (pathName key) ".txt" = true
      · simp [hsf]
      · simp [hsf]
    · simp
  · intro d k hm
    simp only [get_available_subchapters_from_s3] at hm
    rw [foldl_pages_eq_flatten] at hm
    have hm2 := (sortPairs_perm _).mem_iff.mp hm
    rcases mem_foldl_processKey hm2 with h | h
    · cases h
    · exact ⟨h.1, h.2⟩
  · intro k d hk hp
    simp only [get_available_subchapters_from_s3]
    rw [foldl_pages_eq_flatten]
    have hd : d ∈ (ps.flatten.foldl processKey []).map Prod.fst :=
      mem_fst_foldl_of_parse hk hp
    have hd2 : d ∈ ((sortPairs (ps.flatten.foldl processKey [])).map Prod.fst) := by
      rw [List.Perm.mem_iff ((sortPairs_perm _).map Prod.fst)]
      exact hd
    rcases List.mem_map.mp hd2 with ⟨e, he, hfst⟩
    exact ⟨e.2, by rw [← hfst]; exact he⟩
  · simp only [get_available_subchapters_from_s3]
    rw [foldl_pages_eq_flatten, (sortPairs_perm _).length_eq]
    have := length_foldl_processKey ps.flatten []
    simpa using this

/-- **C7**: the Catalog maps a display label to the object key of the *last*
unit in the backend's listing order (all pagination pages concatenated)
whose base name parses to that label; in particular when two distinct ids
collide on a label, the later-listed id wins. -/
theorem claim7_collision_last_listed_wins (ps : List (List String)) (d : String) :
    lookupA (get_available_subchapters_from_s3 (ListOutcome.pages ps)) d =
      ps.flatten.reverse.find? (fun k => decide (parseDisplay k = some d)) := by
  simp only [get_available_subchapters_from_s3]
  rw [foldl_pages_eq_flatten]
  rw [lookupA_sortPairs _ (nodup_map_fst_foldl ps.flatten [] (by simp)) d]
  rw [lookupA_foldl_processKey]
  cases ps.flatten.reverse.find? (fun k => decide (parseDisplay k = some d)) <;>
    simp [lookupA]

/-- **C8**: the keys of the built Catalog are in strictly ascending
lexicographic order, whatever the backend's listing order (and trivially so
on listing errors, where the catalog is empty). -/
theorem claim8_catalog_keys_sorted (lo : ListOutcome) :
    List.Chain' (fun a b : String × String => a.1 < b.1)
      (get_available_subchapters_from_s3 lo) := by
  cases lo with
  | pages ps =>
      simp only [get_available_subchapters_from_s3]
      refine chain_lt_sortPairs _ ?_
      have := nodup_map_fst_foldl ps.flatten [] (by simp)
      rwa [← foldl_pages_eq_flatten] at this
  | clientError msg => simp [get_available_subchapters_from_s3]
  | otherError msg => simp [get_available_subchapters_from_s3]

/-- **C9** counterexample to the claim as stated: a listing failure yields
the same empty catalog as an empty bucket, and every fetch failure —
missing key, denied access, or invalid encoding — yields the same absent
result, so no typed error reaches the caller. -/
theorem claim9_counterexample :
    get_available_subchapters_from_s3 (ListOutcome.clientError "NoSuchBucket") = [] ∧
    get_available_subchapters_from_s3 (ListOutcome.pages [[]]) = [] ∧
    load_subchapter_content_from_s3 (FetchOutcome.clientError "NoSuchKey") = none ∧
    load_subchapter_content_from_s3 (FetchOutcome.clientError "AccessDenied") = none ∧
    load_subchapter_content_from_s3 FetchOutcome.decodeError = none :=
  ⟨rfl, rfl, rfl, rfl, rfl⟩

/-- **C9** (amended): failures of the Content Store operations are shown to
the user as error messages that distinguish the cause (e.g. missing key vs
denied access), but to the caller `listUnits` fails by returning an empty
catalog and `fetchText` by returning an absent result — a fetch succeeds
exactly when the backend interaction succeeded. -/
theorem claim9_errors_swallowed (e t : String) (o : FetchOutcome) :
    get_available_subchapters_from_s3 (ListOutcome.clientError e) = [] ∧
    get_available_subchapters_from_s3 (ListOutcome.otherError e) = [] ∧
    load_subchapter_content_from_s3 (FetchOutcome.ok t) = some t ∧
    ((load_subchapter_content_from_s3 o).isSome = true ↔
      ∃ t2, o = FetchOutcome.ok t2) ∧
    load_error_message "bucket" "key" (FetchOutcome.clientError "NoSuchKey") ≠
      load_error_message "bucket" "key" (FetchOutcome.clientError "AccessDenied") := by
  refine ⟨rfl, rfl, rfl, ?_, by decide⟩
  cases o <;> simp [load_subchapter_content_from_s3]

/-- **C3**: every failure during a non-sentinel selection transition —
catalog lookup miss, content-fetch failure, model-initialisation failure, or
dialogue-open failure — leaves the session fully reset (empty dialogue, no
content, no model, no chat handle) and forces the selection back to the
placeholder sentinel; the session never stays half-loaded. -/
theorem claim3_failed_load_resets (catalog : List (String × String)) (s : SessionState)
    (label : String) (env : LoadEnv)
    (hl : label ≠ PLATZHALTER_AUSWAHL)
    (hfail : lookupA catalog label = none ∨
      load_subchapter_content_from_s3 env.fetch = none ∨
      env.modelInit = false ∨ (∃ e, env.startChat = Except.error e)) :
    (selectUnit catalog s label env).1.messages = [] ∧
    (selectUnit catalog s label env).1.subchapter_content = none ∧
    (selectUnit catalog s label env).1.learnlm_model = none ∧
    (selectUnit catalog s label env).1.chat_session = none ∧
    (selectUnit catalog s label env).1.selected = PLATZHALTER_AUSWAHL := by
  have hres : (selectUnit catalog s label env).1 = initialState := by
    apply selectUnit_failure catalog s label env hl
    rcases hfail with h | h | h | h
    · exact Or.inl h
    · exact Or.inr (Or.inr (Or.inl h))
    · exact Or.inr (Or.inr (Or.inr (Or.inr (Or.inl h))))
    · exact Or.inr (Or.inr (Or.inr (Or.inr (Or.inr h))))
  rw [hres]
  exact ⟨rfl, rfl, rfl, rfl, rfl⟩

/-- **C4**: after any complete selection transition, the chat handle and the
content text are both present or both absent, and they are absent exactly
when the selection ends at the placeholder sentinel (sentinel selected or
load failed); the dialogue is empty immediately after any reset; and a
`sendMessage` step never changes the handle, the content or the
selection. -/
theorem claim4_state_invariant (catalog : List (String × String)) (s : SessionState)
    (label : String) (env : LoadEnv) (text : String) (gateway : Except String String) :
    ((selectUnit catalog s label env).1.chat_session.isSome =
      (selectUnit catalog s label env).1.subchapter_content.isSome) ∧
    ((selectUnit catalog s label env).1.chat_session = none ↔
      (selectUnit catalog s label env).1.selected = PLATZHALTER_AUSWAHL) ∧
    (reset_chat_state s).messages = [] ∧
    (sendMessage s text gateway).chat_session = s.chat_session ∧
    (sendMessage s text gateway).subchapter_content = s.subchapter_content ∧
    (sendMessage s text gateway).selected = s.selected := by
  have hsend : (sendMessage s text gateway).chat_session = s.chat_session ∧
      (sendMessage s text gateway).subchapter_content = s.subchapter_content ∧
      (sendMessage s text gateway).selected = s.selected := by
    cases gateway <;> exact ⟨rfl, rfl, rfl⟩
  have hmain : ((selectUnit catalog s label env).1.chat_session.isSome =
      (selectUnit catalog s label env).1.subchapter_content.isSome) ∧
      ((selectUnit catalog s label env).1.chat_session = none ↔
        (selectUnit catalog s label env).1.selected = PLATZHALTER_AUSWAHL) := by
    by_cases hl : label = PLATZHALTER_AUSWAHL
    · subst hl
      rw [selectUnit_sentinel]
      exact ⟨rfl, by simp [initialState]⟩
    · rcases hsc : env.startChat with e | handle
      · rw [selectUnit_failure catalog s label env hl
          (Or.inr (Or.inr (Or.inr (Or.inr (Or.inr ⟨e, hsc⟩)))))]
        exact ⟨rfl, by simp [initialState]⟩
      · rcases hlk : lookupA catalog label with _ | object_key
        · rw [selectUnit_failure catalog s label env hl (Or.inl hlk)]
          exact ⟨rfl, by simp [initialState]⟩
        · by_cases hk0 : object_key = ""
          · subst hk0
            rw [selectUnit_failure catalog s label env hl (Or.inr (Or.inl hlk))]
            exact ⟨rfl, by simp [initialState]⟩
          · rcases hld : load_subchapter_content_from_s3 env.fetch with _ | content
            · rw [selectUnit_failure catalog s label env hl
                (Or.inr (Or.inr (Or.inl hld)))]
              exact ⟨rfl, by simp [initialState]⟩
            · by_cases hc : content = ""
              · subst hc
                rw [selectUnit_failure catalog s label env hl
                  (Or.inr (Or.inr (Or.inr (Or.inl hld))))]
                exact ⟨rfl, by simp [initialState]⟩
              · rcases hmi : env.modelInit with _ | _
                · rw [selectUnit_failure catalog s label env hl
                    (Or.inr (Or.inr (Or.inr (Or.inr (Or.inl hmi)))))]
                  exact ⟨rfl, by simp [initialState]⟩
                · rw [selectUnit_success catalog s label env object_key content handle
                    hl hlk hk0 hld hc hmi hsc]
                  exact ⟨rfl, by simp [hl]⟩
  exact ⟨hmain.1, hmain.2, rfl, hsend.1, hsend.2.1, hsend.2.2⟩

/-- **C5**: when a `sendMessage` step's Chat Gateway call fails, the state
stays Active — the chat handle, content and selection are untouched — and
the dialogue grows by exactly two entries: the user turn and a synthesized
assistant turn carrying the error description. -/
theorem claim5_send_failure_appends (s : SessionState) (text err : String) :
    (sendMessage s text (Except.error err)).chat_session = s.chat_session ∧
    (sendMessage s text (Except.error err)).subchapter_content = s.subchapter_content ∧
    (sendMessage s text (Except.error err)).learnlm_model = s.learnlm_model ∧
    (sendMessage s text (Except.error err)).selected = s.selected ∧
    (sendMessage s text (Except.error err)).messages =
      s.messages ++ [Msg.mk Role.user text, Msg.mk Role.assistant (send_error_reply err)] ∧
    (sendMessage s text (Except.error err)).messages.length = s.messages.length + 2 := by
  refine ⟨rfl, rfl, rfl, rfl, ?_, ?_⟩ <;> simp [sendMessage]

/-- **C6**: when the dialogue opens successfully but the opening-turn request
fails, the transition does not fail: the static fallback greeting is
appended and the controller ends Active with the new chat handle open, the
content loaded and the chosen label selected. -/
theorem claim6_greeting_failure_nonfatal (catalog : List (String × String))
    (s : SessionState) (label : String) (env : LoadEnv)
    (object_key content : String) (handle : Nat) (e : String)
    (hl : label ≠ PLATZHALTER_AUSWAHL)
    (hk : lookupA catalog label = some object_key) (hk0 : object_key ≠ "")
    (hf : load_subchapter_content_from_s3 env.fetch = some content) (hc : content ≠ "")
    (hm : env.modelInit = true) (hs : env.startChat = Except.ok handle)
    (hg : env.greeting = Except.error e) :
    (selectUnit catalog s label env).1.chat_session = some handle ∧
    (selectUnit catalog s label env).1.selected = label ∧
    (selectUnit catalog s label env).1.subchapter_content = some content ∧
    (selectUnit catalog s label env).1.messages =
      [Msg.mk Role.assistant (fallback_greeting label)] := by
  rw [selectUnit_success catalog s label env object_key content handle hl hk hk0 hf hc hm hs]
  refine ⟨rfl, rfl, rfl, ?_⟩
  rw [hg]
  rfl

/-- **C10** (implicit): when the content fetch succeeds but returns the empty
string, the truthiness test `if content:` makes the controller treat the
load as failed: the session ends fully reset, no dialogue is opened, and the
selection is forced back to the placeholder sentinel — an empty content unit
is indistinguishable from a fetch failure. -/
theorem claim10_empty_content_is_failure (catalog : List (String × String))
    (s : SessionState) (label : String) (env : LoadEnv) (object_key : String)
    (hl : label ≠ PLATZHALTER_AUSWAHL)
    (hk : lookupA catalog label = some object_key)
    (hf : env.fetch = FetchOutcome.ok "") :
    (selectUnit catalog s label env).1.messages = [] ∧
    (selectUnit catalog s label env).1.subchapter_content = none ∧
    (selectUnit catalog s label env).1.learnlm_model = none ∧
    (selectUnit catalog s label env).1.chat_session = none ∧
    (selectUnit catalog s label env).1.selected = PLATZHALTER_AUSWAHL := by
  have hres : (selectUnit catalog s label env).1 = initialState := by
    apply selectUnit_failure catalog s label env hl
    refine Or.inr (Or.inr (Or.inr (Or.inl ?_)))
    rw [hf]
    rfl
  rw [hres]
  exact ⟨rfl, rfl, rfl, rfl, rfl⟩

/-! ### Witnesses: each theorem with hypotheses, applied at a concrete input -/

/-- Witness for C1: in the successful demo load, the content fetch is a
remote step of the trace and it observes the fully reset session. -/
theorem claim1_witness :
    ((Event.fetchContent "8_Economics_8.3 Inflation.txt",
        reset_chat_state { initialState with selected := "8.3 Inflation" }) ∈
          (selectUnit demoCatalog initialState "8.3 Inflation" goodEnv).2 ∧
      (Event.fetchContent "8_Economics_8.3 Inflation.txt").isRemote = true) ∧
    ((reset_chat_state { initialState with selected := "8.3 Inflation" }).messages = [] ∧
      (∀ object_key,
        Event.fetchContent "8_Economics_8.3 Inflation.txt" = Event.fetchContent object_key →
          (reset_chat_state { initialState with selected := "8.3 Inflation" }).subchapter_content
              = none ∧
            (reset_chat_state { initialState with selected := "8.3 Inflation" }).learnlm_model
              = none ∧
            (reset_chat_state { initialState with selected := "8.3 Inflation" }).chat_session
              = none)) :=
  ⟨⟨by decide, by decide⟩,
    claim1_reset_before_remote demoCatalog initialState "8.3 Inflation" goodEnv
      (Event.fetchContent "8_Economics_8.3 Inflation.txt")
      (reset_chat_state { initialState with selected := "8.3 Inflation" })
      (by decide) (by decide)⟩

/-- Witness for C2 on Scenario A's listing: the well-formed key contributes
its display name to the catalog. -/
theorem claim2_witness :
    ("8_Economics_8.3 Inflation.txt" ∈
        ([["8_Economics_8.3 Inflation.txt", "stray.txt"]] : List (List String)).flatten ∧
      parseDisplay "8_Economics_8.3 Inflation.txt" = some "8.3 Inflation") ∧
    (∃ k2, ("8.3 Inflation", k2) ∈ get_available_subchapters_from_s3
        (ListOutcome.pages [["8_Economics_8.3 Inflation.txt", "stray.txt"]])) :=
  ⟨⟨by decide, by decide⟩,
    (claim2_naming_parse_law [["8_Economics_8.3 Inflation.txt", "stray.txt"]]).2.2.1
      "8_Economics_8.3 Inflation.txt" "8.3 Inflation" (by decide) (by decide)⟩

/-- Witness for C3: a denied-access content fetch resets the session and
forces the selection back to the placeholder. -/
theorem claim3_witness :
    (("8.3 Inflation" : String) ≠ PLATZHALTER_AUSWAHL ∧
      load_subchapter_content_from_s3 fetchFailEnv.fetch = none) ∧
    ((selectUnit demoCatalog initialState "8.3 Inflation" fetchFailEnv).1.messages = [] ∧
      (selectUnit demoCatalog initialState "8.3 Inflation" fetchFailEnv).1.subchapter_content
          = none ∧
      (selectUnit demoCatalog initialState "8.3 Inflation" fetchFailEnv).1.learnlm_model
          = none ∧
      (selectUnit demoCatalog initialState "8.3 Inflation" fetchFailEnv).1.chat_session
          = none ∧
      (selectUnit demoCatalog initialState "8.3 Inflation" fetchFailEnv).1.selected
          = PLATZHALTER_AUSWAHL) :=
  ⟨⟨by decide, rfl⟩,
    claim3_failed_load_resets demoCatalog initialState "8.3 Inflation" fetchFailEnv
      (by decide) (Or.inr (Or.inl rfl))⟩

/-- Witness for C6: in the demo load with a failing greeting request, the
session ends Active with the fallback greeting as its only turn. -/
theorem claim6_witness :
    (("8.3 Inflation" : String) ≠ PLATZHALTER_AUSWAHL ∧
      lookupA demoCatalog "8.3 Inflation" = some "8_Economics_8.3 Inflation.txt" ∧
      ("8_Economics_8.3 Inflation.txt" : String) ≠ "" ∧
      load_subchapter_content_from_s3 greetFailEnv.fetch = some "...[seite: 221]..." ∧
      ("...[seite: 221]..." : String) ≠ "" ∧
      greetFailEnv.modelInit = true ∧
      greetFailEnv.startChat = Except.ok 7 ∧
      greetFailEnv.greeting = Except.error "Timeout") ∧
    ((selectUnit demoCatalog initialState "8.3 Inflation" greetFailEnv).1.chat_session
        = some 7 ∧
      (selectUnit demoCatalog initialState "8.3 Inflation" greetFailEnv).1.selected
        = "8.3 Inflation" ∧
      (selectUnit demoCatalog initialState "8.3 Inflation" greetFailEnv).1.subchapter_content
        = some "...[seite: 221]..." ∧
      (selectUnit demoCatalog initialState "8.3 Inflation" greetFailEnv).1.messages
        = [Msg.mk Role.assistant (fallback_greeting "8.3 Inflation")]) :=
  ⟨⟨by decide, by decide, by decide, rfl, by decide, rfl, rfl, rfl⟩,
    claim6_greeting_failure_nonfatal demoCatalog initialState "8.3 Inflation" greetFailEnv
      "8_Economics_8.3 Inflation.txt" "...[seite: 221]..." 7 "Timeout"
      (by decide) (by decide) (by decide) rfl (by decide) rfl rfl rfl⟩

/-- Witness for C10: a fetch that succeeds with the empty string resets the
session exactly like a failure. -/
theorem claim10_witness :
    (("8.3 Inflation" : String) ≠ PLATZHALTER_AUSWAHL ∧
      lookupA demoCatalog "8.3 Inflation" = some "8_Economics_8.3 Inflation.txt" ∧
      emptyContentEnv.fetch = FetchOutcome.ok "") ∧
    ((selectUnit demoCatalog initialState "8.3 Inflation" emptyContentEnv).1.messages = [] ∧
      (selectUnit demoCatalog initialState "8.3 Inflation" emptyContentEnv).1.subchapter_content
          = none ∧
      (selectUnit demoCatalog initialState "8.3 Inflation" emptyContentEnv).1.learnlm_model
          = none ∧
      (selectUnit demoCatalog initialState "8.3 Inflation" emptyContentEnv).1.chat_session
          = none ∧
      (selectUnit demoCatalog initialState "8.3 Inflation" emptyContentEnv).1.selected
          = PLATZHALTER_AUSWAHL) :=
  ⟨⟨by decide, by decide, rfl⟩,
    claim10_empty_content_is_failure demoCatalog initialState "8.3 Inflation" emptyContentEnv
      "8_Economics_8.3 Inflation.txt" (by decide) (by decide) rfl⟩
